import Mathlib

/-!
Shallow embedding of the cost estimator and the video-route parameter
normalization of the gpt-image-1 playground repository.

Two revisions of the cost calculator exist in the repository:
* `CostUtils.calculateApiCost` embeds the current revision of
  `src/lib/cost-utils.ts`: a single blended input rate with a cache
  discount applied to the combined text+image pool;
* `LegacyCost.calculateApiCost` embeds the earlier revision: per-model
  rate tables for three models and no cache discount.

JavaScript numbers are modelled as exact rationals (ℚ); every token count
the claims exercise is an integer, far below the range where IEEE-754
doubles diverge from exact arithmetic. A JavaScript field value is
modelled by `JsVal`: it can be `undefined`, `null`, a number, or a
present value of a non-numeric type (`other`, e.g. a string).
-/

/-- A JavaScript value stored in a usage field: `undefined`, `null`,
a number, or some other (non-numeric) value such as a string. -/
inductive JsVal where
  | undef
  | null
  | num (q : ℚ)
  | other
deriving DecidableEq

/-- JS `v ?? 0`: `undefined` and `null` become the number `0`,
anything else passes through. -/
def coalesceZero : JsVal → JsVal
  | .undef => .num 0
  | .null => .num 0
  | v => v

/-- JS `typeof v === number` test together with extraction of the
numeric value: `some q` when the value is the number `q`, else `none`. -/
def asNum : JsVal → Option ℚ
  | .num q => some q
  | _ => none

/-- Whether a JS value is `undefined` or `null` (both are absorbed by
the `?? 0` defaulting operator and both fail `=== undefined || === null`
style presence checks). -/
def isMissing : JsVal → Bool
  | .undef => true
  | .null => true
  | _ => false

/-- Whether a JS value is present but of a non-numeric type. -/
def isOther : JsVal → Bool
  | .other => true
  | _ => false

/-- JS `Math.round`: rounds half toward positive infinity. -/
def jsRound (x : ℚ) : ℤ := Rat.floor (x + 1 / 2)

/-- JS `Math.max` on two (non-NaN) numbers. -/
def jsMax (a b : ℚ) : ℚ := if a ≤ b then b else a

/-- Round half away from zero to an integer, the rounding named by the
spec; it agrees with JS `Math.round` on non-negative arguments. -/
def roundHalfAwayFromZero (x : ℚ) : ℤ :=
  if 0 ≤ x then Rat.floor (x + 1 / 2) else -Rat.floor (-x + 1 / 2)

namespace CostUtils

/-- The `input_tokens_details` object of `src/lib/cost-utils.ts`: each
of its three optional fields is a JS value. -/
structure InputTokensDetails where
  text_tokens : JsVal
  image_tokens : JsVal
  cached_tokens : JsVal
deriving DecidableEq

/-- The `ApiUsage` type of `src/lib/cost-utils.ts`. The field
`input_tokens_details` is an optional object: `none` models a falsy
value there (`undefined` or `null`), which the guard `!usage.input_tokens_details`
rejects; `output_tokens` is an optional numeric field. -/
structure ApiUsage where
  input_tokens_details : Option InputTokensDetails
  output_tokens : JsVal
deriving DecidableEq

/-- The `CostDetails` result type of `src/lib/cost-utils.ts`. -/
structure CostDetails where
  estimated_cost_usd : ℚ
  text_input_tokens : ℚ
  image_input_tokens : ℚ
  cached_input_tokens : ℚ
  billable_input_tokens : ℚ
  image_output_tokens : ℚ
deriving DecidableEq

def INPUT_COST_PER_TOKEN : ℚ := 0.000008

def CACHED_INPUT_COST_PER_TOKEN : ℚ := 0.000002

def IMAGE_OUTPUT_COST_PER_TOKEN : ℚ := 0.000032

/-- `calculateApiCost` of `src/lib/cost-utils.ts` (current revision).
Returns `none` exactly where the source returns `null`: missing usage,
falsy `input_tokens_details`, `output_tokens === undefined || null`,
or a token field that survives `?? 0` with a non-numeric value. -/
def calculateApiCost (usage : Option ApiUsage) : Option CostDetails :=
  match usage with
  | none => none
  | some u =>
    match u.input_tokens_details with
    | none => none
    | some d =>
      if u.output_tokens = JsVal.undef ∨ u.output_tokens = JsVal.null then none
      else
        match asNum (coalesceZero d.text_tokens), asNum (coalesceZero d.image_tokens),
              asNum (coalesceZero d.cached_tokens), asNum (coalesceZero u.output_tokens) with
        | some textInT, some imgInT, some cachedInT, some imgOutT =>
          let billableInputTokens := jsMax (textInT + imgInT - cachedInT) 0
          let costUSD :=
            billableInputTokens * INPUT_COST_PER_TOKEN +
            cachedInT * CACHED_INPUT_COST_PER_TOKEN +
            imgOutT * IMAGE_OUTPUT_COST_PER_TOKEN
          let costRounded := (jsRound (costUSD * 10000) : ℚ) / 10000
          some {
            estimated_cost_usd := costRounded,
            text_input_tokens := textInT,
            image_input_tokens := imgInT,
            cached_input_tokens := cachedInT,
            billable_input_tokens := billableInputTokens,
            image_output_tokens := imgOutT }
        | _, _, _, _ => none

/-- A usage record whose four token fields are all plain numbers. -/
def mkUsage (t i c o : ℚ) : Option ApiUsage :=
  some ⟨some ⟨.num t, .num i, .num c⟩, .num o⟩

/-- The invalidity condition exactly as the claim under scrutiny words
it: the usage object is absent, the output-token count is missing, or a
token field is present (not `undefined`/`null`) but not numeric. Written
from the words of the spec sentence, for comparison with the condition
the code actually implements. -/
def specClaimedInvalid (usage : Option ApiUsage) : Bool :=
  match usage with
  | none => true
  | some u =>
    isMissing u.output_tokens ||
    (match u.input_tokens_details with
     | none => false
     | some d => isOther d.text_tokens || isOther d.image_tokens || isOther d.cached_tokens) ||
    isOther u.output_tokens

/-- The invalidity condition the code actually implements: usage absent,
`input_tokens_details` absent, output-token count missing (`undefined`
or `null`), or a token field present but of a non-numeric type. -/
def usageInvalid (usage : Option ApiUsage) : Bool :=
  match usage with
  | none => true
  | some u =>
    match u.input_tokens_details with
    | none => true
    | some d =>
      isMissing u.output_tokens ||
      isOther d.text_tokens || isOther d.image_tokens || isOther d.cached_tokens ||
      isOther u.output_tokens

end CostUtils

namespace LegacyCost

/-- The `input_tokens_details` object of the earlier cost-utils
revision: only text and image token fields. -/
structure InputTokensDetails where
  text_tokens : JsVal
  image_tokens : JsVal
deriving DecidableEq

/-- The `ApiUsage` type of the earlier cost-utils revision. -/
structure ApiUsage where
  input_tokens_details : Option InputTokensDetails
  output_tokens : JsVal
deriving DecidableEq

/-- The `CostDetails` result type of the earlier cost-utils revision. -/
structure CostDetails where
  estimated_cost_usd : ℚ
  text_input_tokens : ℚ
  image_input_tokens : ℚ
  image_output_tokens : ℚ
deriving DecidableEq

def GPT_IMAGE_1_TEXT_INPUT_COST_PER_TOKEN : ℚ := 0.000005

def GPT_IMAGE_1_IMAGE_INPUT_COST_PER_TOKEN : ℚ := 0.00001

def GPT_IMAGE_1_IMAGE_OUTPUT_COST_PER_TOKEN : ℚ := 0.00004

def GPT_IMAGE_1_MINI_TEXT_INPUT_COST_PER_TOKEN : ℚ := 0.000002

def GPT_IMAGE_1_MINI_IMAGE_INPUT_COST_PER_TOKEN : ℚ := 0.0000025

def GPT_IMAGE_1_MINI_IMAGE_OUTPUT_COST_PER_TOKEN : ℚ := 0.000008

def GPT_IMAGE_1_5_TEXT_INPUT_COST_PER_TOKEN : ℚ := 0.000005

def GPT_IMAGE_1_5_IMAGE_INPUT_COST_PER_TOKEN : ℚ := 0.000008

def GPT_IMAGE_1_5_IMAGE_OUTPUT_COST_PER_TOKEN : ℚ := 0.000032

/-- The text-input rate selection of the earlier revision: the chain of
string comparisons of the source, whose final `else` branch carries the
comment "Default to gpt-image-1". -/
def textInputCost (model : String) : ℚ :=
  if model = "gpt-image-1-mini" then GPT_IMAGE_1_MINI_TEXT_INPUT_COST_PER_TOKEN
  else if model = "gpt-image-1.5" then GPT_IMAGE_1_5_TEXT_INPUT_COST_PER_TOKEN
  else GPT_IMAGE_1_TEXT_INPUT_COST_PER_TOKEN

/-- The image-input rate selection of the earlier revision. -/
def imageInputCost (model : String) : ℚ :=
  if model = "gpt-image-1-mini" then GPT_IMAGE_1_MINI_IMAGE_INPUT_COST_PER_TOKEN
  else if model = "gpt-image-1.5" then GPT_IMAGE_1_5_IMAGE_INPUT_COST_PER_TOKEN
  else GPT_IMAGE_1_IMAGE_INPUT_COST_PER_TOKEN

/-- The image-output rate selection of the earlier revision. -/
def imageOutputCost (model : String) : ℚ :=
  if model = "gpt-image-1-mini" then GPT_IMAGE_1_MINI_IMAGE_OUTPUT_COST_PER_TOKEN
  else if model = "gpt-image-1.5" then GPT_IMAGE_1_5_IMAGE_OUTPUT_COST_PER_TOKEN
  else GPT_IMAGE_1_IMAGE_OUTPUT_COST_PER_TOKEN

/-- `calculateApiCost` of the earlier cost-utils revision: per-model
rates, no cached-token field and no cache discount. The model parameter
defaults to "gpt-image-1.5" in the source signature; an unrecognized
model string reaches the final `else` of each rate selection, i.e. the
gpt-image-1 rates. -/
def calculateApiCost (usage : Option ApiUsage) (model : String := "gpt-image-1.5") :
    Option CostDetails :=
  match usage with
  | none => none
  | some u =>
    match u.input_tokens_details with
    | none => none
    | some d =>
      if u.output_tokens = JsVal.undef ∨ u.output_tokens = JsVal.null then none
      else
        match asNum (coalesceZero d.text_tokens), asNum (coalesceZero d.image_tokens),
              asNum (coalesceZero u.output_tokens) with
        | some textInT, some imgInT, some imgOutT =>
          let costUSD :=
            textInT * textInputCost model + imgInT * imageInputCost model +
            imgOutT * imageOutputCost model
          let costRounded := (jsRound (costUSD * 10000) : ℚ) / 10000
          some {
            estimated_cost_usd := costRounded,
            text_input_tokens := textInT,
            image_input_tokens := imgInT,
            image_output_tokens := imgOutT }
        | _, _, _ => none

/-- The three model identifiers the rate-selection chain tests for
(explicitly or as the commented default of its final `else`). -/
def recognizedModels : List String :=
  ["gpt-image-1", "gpt-image-1-mini", "gpt-image-1.5"]

/-- The model whose rates the final `else` of the rate selection uses,
designated by the source comment "Default to gpt-image-1". -/
def fallbackModel : String := "gpt-image-1"

/-- A legacy usage record whose three token fields are plain numbers. -/
def mkUsage (t i o : ℚ) : Option ApiUsage :=
  some ⟨some ⟨.num t, .num i⟩, .num o⟩

end LegacyCost

namespace VideoRoute

/-- The `allowedSeconds` array of the POST handler in
`src/app/api/video/route.ts`. -/
def allowedSeconds : List ℤ := [4, 8, 12]

/-- Value of a string of decimal digits, most significant first. -/
def digitsToNat (ds : List Char) : ℕ :=
  ds.foldl (fun a c => a * 10 + (c.toNat - 48)) 0

/-- JS `parseInt(s, 10)`: skip leading whitespace, read an optional
sign, then the longest run of decimal digits; `none` models `NaN`
(no digits found). -/
def jsParseInt10 (s : String) : Option ℤ :=
  let cs := s.data.dropWhile Char.isWhitespace
  let signed : Bool × List Char :=
    match cs with
    | '-' :: rest => (true, rest)
    | '+' :: rest => (false, rest)
    | _ => (false, cs)
  let ds := signed.2.takeWhile Char.isDigit
  if ds.isEmpty then none
  else if signed.1 then some (-(digitsToNat ds : ℤ)) else some (digitsToNat ds : ℤ)

/-- The `reduce` of the POST handler picking the allowed duration
closest to the submitted one, starting from the accumulator 8. The
argument `none` models `NaN` (a non-numeric submission): every `NaN`
comparison is false, so the accumulator 8 survives every step. -/
def nearestAllowed (s : Option ℤ) : ℤ :=
  allowedSeconds.foldl
    (fun prev curr =>
      match s with
      | none => prev
      | some v => if (curr - v).natAbs < (prev - v).natAbs then curr else prev)
    8

/-- The string actually parsed for the `seconds` field:
`(formData.get('seconds') as string) || '8'`, i.e. a missing field or
an empty string is replaced by "8". -/
def rawSeconds (field : Option String) : String :=
  match field with
  | none => "8"
  | some s => if s = "" then "8" else s

/-- The `seconds` computation of the POST handler: parse the submitted
field, pass an allowed value through, otherwise take the nearest
allowed value via the `reduce`. -/
def resolveSeconds (field : Option String) : ℤ :=
  match jsParseInt10 (rawSeconds field) with
  | some n => if allowedSeconds.contains n then n else nearestAllowed (some n)
  | none => nearestAllowed none

end VideoRoute

/-! ### Helper lemmas -/

theorem ratFloor_eq (q : ℚ) : Rat.floor q = ⌊q⌋ := rfl

theorem jsRound_mono {x y : ℚ} (h : x ≤ y) : jsRound x ≤ jsRound y := by
  unfold jsRound
  rw [ratFloor_eq, ratFloor_eq]
  exact Int.floor_le_floor (by linarith)

theorem jsRound_nonneg {x : ℚ} (h : 0 ≤ x) : 0 ≤ jsRound x := by
  unfold jsRound
  rw [ratFloor_eq]
  exact Int.le_floor.mpr (by push_cast; linarith)

theorem jsMax_eq_max (a b : ℚ) : jsMax a b = max a b := (max_def a b).symm

theorem jsMax_zero_nonneg (a : ℚ) : 0 ≤ jsMax a 0 := by
  unfold jsMax
  split_ifs with h1 <;> linarith

theorem jsMax_zero_mono {a b : ℚ} (h : a ≤ b) : jsMax a 0 ≤ jsMax b 0 := by
  unfold jsMax
  split_ifs with h1 h2 <;> linarith

theorem roundHalfAwayFromZero_eq_jsRound {x : ℚ} (h : 0 ≤ x) :
    roundHalfAwayFromZero x = jsRound x := by
  unfold roundHalfAwayFromZero jsRound
  rw [if_pos h]

theorem CostUtils.calculateApiCost_mkUsage (t i c o : ℚ) :
    CostUtils.calculateApiCost (CostUtils.mkUsage t i c o) =
      some ⟨(jsRound ((jsMax (t + i - c) 0 * CostUtils.INPUT_COST_PER_TOKEN +
          c * CostUtils.CACHED_INPUT_COST_PER_TOKEN +
          o * CostUtils.IMAGE_OUTPUT_COST_PER_TOKEN) * 10000) : ℚ) / 10000,
        t, i, c, jsMax (t + i - c) 0, o⟩ := rfl

theorem CostUtils.calculateApiCost_some_spec (u : Option CostUtils.ApiUsage)
    (cd : CostUtils.CostDetails) (h : CostUtils.calculateApiCost u = some cd) :
    cd.billable_input_tokens =
      jsMax (cd.text_input_tokens + cd.image_input_tokens - cd.cached_input_tokens) 0 ∧
    cd.estimated_cost_usd =
      (jsRound ((cd.billable_input_tokens * CostUtils.INPUT_COST_PER_TOKEN +
        cd.cached_input_tokens * CostUtils.CACHED_INPUT_COST_PER_TOKEN +
        cd.image_output_tokens * CostUtils.IMAGE_OUTPUT_COST_PER_TOKEN) * 10000) : ℚ) / 10000 := by
  rcases u with _ | ⟨_ | d, out⟩
  · simp [CostUtils.calculateApiCost] at h
  · simp [CostUtils.calculateApiCost] at h
  · simp only [CostUtils.calculateApiCost] at h
    split at h
    · simp at h
    · split at h
      · injection h with h
        subst h
        exact ⟨rfl, rfl⟩
      · simp at h

theorem LegacyCost.legacy_calculateApiCost_mkUsage (t i o : ℚ) (m : String) :
    LegacyCost.calculateApiCost (LegacyCost.mkUsage t i o) m =
      some ⟨(jsRound ((t * LegacyCost.textInputCost m + i * LegacyCost.imageInputCost m +
          o * LegacyCost.imageOutputCost m) * 10000) : ℚ) / 10000,
        t, i, o⟩ := rfl

theorem VideoRoute.nearestAllowed_none : VideoRoute.nearestAllowed none = 8 := rfl

theorem VideoRoute.nearestAllowed_some_mem (n : ℤ) :
    VideoRoute.nearestAllowed (some n) ∈ VideoRoute.allowedSeconds := by
  unfold VideoRoute.nearestAllowed VideoRoute.allowedSeconds
  simp only [List.foldl_cons, List.foldl_nil]
  split_ifs <;> simp

theorem VideoRoute.nearestAllowed_some_nearest (n : ℤ) :
    ∀ a ∈ VideoRoute.allowedSeconds,
      (VideoRoute.nearestAllowed (some n) - n).natAbs ≤ (a - n).natAbs := by
  intro a ha
  unfold VideoRoute.allowedSeconds at ha
  unfold VideoRoute.nearestAllowed VideoRoute.allowedSeconds
  simp only [List.foldl_cons, List.foldl_nil]
  fin_cases ha <;> (split_ifs <;> omega)

/-! ### Claim theorems -/

/-- Claim C1: for every usage record the cost estimator accepts, the
returned estimated_cost_usd equals billableInputTokens × inputRate +
cachedInputTokens × cachedRate + imageOutputTokens × outputRate, rounded
to 4 decimal places with round-half-away-from-zero; stated for the
non-negative cached and output counts that occur, on which the rounding
of the source (JS Math.round, half toward positive infinity) coincides
with round-half-away-from-zero. -/
theorem cost_formula_half_away_rounding (u : Option CostUtils.ApiUsage)
    (cd : CostUtils.CostDetails) (h : CostUtils.calculateApiCost u = some cd)
    (hc : 0 ≤ cd.cached_input_tokens) (ho : 0 ≤ cd.image_output_tokens) :
    cd.estimated_cost_usd =
      (roundHalfAwayFromZero ((cd.billable_input_tokens * CostUtils.INPUT_COST_PER_TOKEN +
        cd.cached_input_tokens * CostUtils.CACHED_INPUT_COST_PER_TOKEN +
        cd.image_output_tokens * CostUtils.IMAGE_OUTPUT_COST_PER_TOKEN) * 10000) : ℚ) /
        10000 := by
  obtain ⟨hb, he⟩ := CostUtils.calculateApiCost_some_spec u cd h
  have hbn : 0 ≤ cd.billable_input_tokens := hb ▸ jsMax_zero_nonneg _
  have hX : (0 : ℚ) ≤ (cd.billable_input_tokens * CostUtils.INPUT_COST_PER_TOKEN +
      cd.cached_input_tokens * CostUtils.CACHED_INPUT_COST_PER_TOKEN +
      cd.image_output_tokens * CostUtils.IMAGE_OUTPUT_COST_PER_TOKEN) * 10000 := by
    have r1 : (0 : ℚ) ≤ CostUtils.INPUT_COST_PER_TOKEN := by
      norm_num [CostUtils.INPUT_COST_PER_TOKEN]
    have r2 : (0 : ℚ) ≤ CostUtils.CACHED_INPUT_COST_PER_TOKEN := by
      norm_num [CostUtils.CACHED_INPUT_COST_PER_TOKEN]
    have r3 : (0 : ℚ) ≤ CostUtils.IMAGE_OUTPUT_COST_PER_TOKEN := by
      norm_num [CostUtils.IMAGE_OUTPUT_COST_PER_TOKEN]
    have := mul_nonneg hbn r1
    have := mul_nonneg hc r2
    have := mul_nonneg ho r3
    nlinarith
  rw [he, roundHalfAwayFromZero_eq_jsRound hX]

/-- Witness for C1 at the concrete accepted record
text=100, image=200, cached=50, output=10. -/
theorem cost_formula_half_away_rounding_witness :
    CostUtils.calculateApiCost (CostUtils.mkUsage 100 200 50 10) =
      some ⟨0.0024, 100, 200, 50, 250, 10⟩ ∧
    (0.0024 : ℚ) =
      (roundHalfAwayFromZero ((250 * CostUtils.INPUT_COST_PER_TOKEN +
        50 * CostUtils.CACHED_INPUT_COST_PER_TOKEN +
        10 * CostUtils.IMAGE_OUTPUT_COST_PER_TOKEN) * 10000) : ℚ) / 10000 := by
  have hEval : CostUtils.calculateApiCost (CostUtils.mkUsage 100 200 50 10) =
      some ⟨0.0024, 100, 200, 50, 250, 10⟩ := by
    rw [CostUtils.calculateApiCost_mkUsage]
    norm_num [jsMax, jsRound, ratFloor_eq, CostUtils.INPUT_COST_PER_TOKEN,
      CostUtils.CACHED_INPUT_COST_PER_TOKEN, CostUtils.IMAGE_OUTPUT_COST_PER_TOKEN,
      CostUtils.CostDetails.mk.injEq, div_eq_iff, Int.floor_eq_iff]
  exact ⟨hEval, cost_formula_half_away_rounding _ _ hEval
    (show (0 : ℚ) ≤ 50 by norm_num) (show (0 : ℚ) ≤ 10 by norm_num)⟩

/-- Claim C2: for every accepted usage record, billable_input_tokens
equals max(text + image − cached, 0), hence is never negative, and for
text=50, image=20, cached=30, output=0 the billable count is 40. -/
theorem billable_input_clamped :
    (∀ u cd, CostUtils.calculateApiCost u = some cd →
      cd.billable_input_tokens =
        max (cd.text_input_tokens + cd.image_input_tokens - cd.cached_input_tokens) 0 ∧
      0 ≤ cd.billable_input_tokens) ∧
    (CostUtils.calculateApiCost (CostUtils.mkUsage 50 20 30 0)).map
      CostUtils.CostDetails.billable_input_tokens = some 40 := by
  constructor
  · intro u cd h
    obtain ⟨hb, -⟩ := CostUtils.calculateApiCost_some_spec u cd h
    refine ⟨?_, hb ▸ jsMax_zero_nonneg _⟩
    rw [hb, jsMax_eq_max]
  · rw [CostUtils.calculateApiCost_mkUsage]
    norm_num [jsMax]

/-- Witness for C2 at the concrete accepted record of scenario B. -/
theorem billable_input_clamped_witness :
    CostUtils.calculateApiCost (CostUtils.mkUsage 50 20 30 0) =
      some ⟨0.0004, 50, 20, 30, 40, 0⟩ ∧
    (40 : ℚ) = max (50 + 20 - 30 : ℚ) 0 ∧ (0 : ℚ) ≤ 40 := by
  have hEval : CostUtils.calculateApiCost (CostUtils.mkUsage 50 20 30 0) =
      some ⟨0.0004, 50, 20, 30, 40, 0⟩ := by
    rw [CostUtils.calculateApiCost_mkUsage]
    norm_num [jsMax, jsRound, ratFloor_eq, CostUtils.INPUT_COST_PER_TOKEN,
      CostUtils.CACHED_INPUT_COST_PER_TOKEN, CostUtils.IMAGE_OUTPUT_COST_PER_TOKEN,
      CostUtils.CostDetails.mk.injEq, div_eq_iff, Int.floor_eq_iff]
  exact ⟨hEval, (billable_input_clamped.1 _ _ hEval).1, (billable_input_clamped.1 _ _ hEval).2⟩

/-- Claim C3 (counterexample): the record with output_tokens present and
numeric but no input_tokens_details object satisfies none of the three
invalidity conditions the claim enumerates, yet the code rejects it, so
the claimed "exactly when" equivalence is false. -/
theorem invalid_enumeration_counterexample :
    CostUtils.specClaimedInvalid (some ⟨none, JsVal.num 0⟩) = false ∧
    CostUtils.calculateApiCost (some ⟨none, JsVal.num 0⟩) = none :=
  ⟨rfl, rfl⟩

/-- Claim C3 (amended): calculateApiCost returns the Invalid sentinel
exactly when the usage object is absent, the input_tokens_details object
is absent, the output-token count is missing (undefined or null), or a
token field is present but not numeric; every other input is accepted
with missing fields defaulted to 0, and the function is total. -/
theorem invalid_iff_usageInvalid (u : Option CostUtils.ApiUsage) :
    CostUtils.calculateApiCost u = none ↔ CostUtils.usageInvalid u = true := by
  rcases u with _ | ⟨_ | ⟨a, b, c⟩, out⟩
  · simp [CostUtils.calculateApiCost, CostUtils.usageInvalid]
  · simp [CostUtils.calculateApiCost, CostUtils.usageInvalid]
  · cases a <;> cases b <;> cases c <;> cases out <;>
      simp [CostUtils.calculateApiCost, CostUtils.usageInvalid, asNum, coalesceZero,
        isMissing, isOther]

/-- Claim C4: for every usage record and every model string outside the
recognized enumeration, the legacy calculateApiCost uses the rates of
the designated default model (the final `else` of the rate selection,
commented "Default to gpt-image-1" in the source) and is total: the
result for an unknown model string equals the result for the default
model. -/
theorem unknown_model_uses_fallback_rates (usage : Option LegacyCost.ApiUsage)
    (m : String) (hm : m ∉ LegacyCost.recognizedModels) :
    LegacyCost.calculateApiCost usage m =
      LegacyCost.calculateApiCost usage LegacyCost.fallbackModel := by
  simp only [LegacyCost.recognizedModels, List.mem_cons, List.not_mem_nil, or_false,
    not_or] at hm
  obtain ⟨-, h2, h3⟩ := hm
  have e1 : LegacyCost.textInputCost m = LegacyCost.textInputCost LegacyCost.fallbackModel := by
    simp [LegacyCost.textInputCost, LegacyCost.fallbackModel, h2, h3]
  have e2 : LegacyCost.imageInputCost m = LegacyCost.imageInputCost LegacyCost.fallbackModel := by
    simp [LegacyCost.imageInputCost, LegacyCost.fallbackModel, h2, h3]
  have e3 : LegacyCost.imageOutputCost m =
      LegacyCost.imageOutputCost LegacyCost.fallbackModel := by
    simp [LegacyCost.imageOutputCost, LegacyCost.fallbackModel, h2, h3]
  unfold LegacyCost.calculateApiCost
  rw [e1, e2, e3]

/-- Witness for C4 at the unknown model string "sora-2". -/
theorem unknown_model_uses_fallback_rates_witness :
    LegacyCost.calculateApiCost (LegacyCost.mkUsage 1 1 1) "sora-2" =
      LegacyCost.calculateApiCost (LegacyCost.mkUsage 1 1 1) LegacyCost.fallbackModel :=
  unknown_model_uses_fallback_rates _ "sora-2" (by decide)

/-- Claim C5 (counterexample): increasing a single token count can
decrease the estimated cost: raising cached_tokens from 0 to 1000000
while text=1000000, image=0, output=0 stay fixed drops the cost from
8 to 2 USD, so cost is not monotone in every token count. -/
theorem cached_increase_decreases_cost :
    (CostUtils.calculateApiCost (CostUtils.mkUsage 1000000 0 0 0)).map
      CostUtils.CostDetails.estimated_cost_usd = some 8 ∧
    (CostUtils.calculateApiCost (CostUtils.mkUsage 1000000 0 1000000 0)).map
      CostUtils.CostDetails.estimated_cost_usd = some 2 ∧
    (0 : ℚ) < 1000000 ∧ (2 : ℚ) < 8 := by
  refine ⟨?_, ?_, by norm_num, by norm_num⟩ <;>
  · rw [CostUtils.calculateApiCost_mkUsage]
    norm_num [jsMax, jsRound, ratFloor_eq, CostUtils.INPUT_COST_PER_TOKEN,
      CostUtils.CACHED_INPUT_COST_PER_TOKEN, CostUtils.IMAGE_OUTPUT_COST_PER_TOKEN,
      div_eq_iff, Int.floor_eq_iff]

/-- Claim C5 (amended): increasing the text-input, image-input, or
image-output token count (holding the others fixed) never decreases
estimated_cost_usd; monotonicity fails only for the cached count. -/
theorem cost_monotone_noncached (t t' i i' c o o' : ℚ)
    (ht : t ≤ t') (hi : i ≤ i') (ho : o ≤ o')
    (cd cd' : CostUtils.CostDetails)
    (h : CostUtils.calculateApiCost (CostUtils.mkUsage t i c o) = some cd)
    (h' : CostUtils.calculateApiCost (CostUtils.mkUsage t' i' c o') = some cd') :
    cd.estimated_cost_usd ≤ cd'.estimated_cost_usd := by
  rw [CostUtils.calculateApiCost_mkUsage] at h h'
  injection h with h
  injection h' with h'
  subst h
  subst h'
  dsimp only
  have hb := jsMax_zero_mono (show t + i - c ≤ t' + i' - c by linarith)
  have r1 : (0 : ℚ) ≤ CostUtils.INPUT_COST_PER_TOKEN := by
    norm_num [CostUtils.INPUT_COST_PER_TOKEN]
  have r3 : (0 : ℚ) ≤ CostUtils.IMAGE_OUTPUT_COST_PER_TOKEN := by
    norm_num [CostUtils.IMAGE_OUTPUT_COST_PER_TOKEN]
  have hX : (jsMax (t + i - c) 0 * CostUtils.INPUT_COST_PER_TOKEN +
      c * CostUtils.CACHED_INPUT_COST_PER_TOKEN +
      o * CostUtils.IMAGE_OUTPUT_COST_PER_TOKEN) * 10000 ≤
      (jsMax (t' + i' - c) 0 * CostUtils.INPUT_COST_PER_TOKEN +
      c * CostUtils.CACHED_INPUT_COST_PER_TOKEN +
      o' * CostUtils.IMAGE_OUTPUT_COST_PER_TOKEN) * 10000 := by
    have := mul_le_mul_of_nonneg_right hb r1
    have := mul_le_mul_of_nonneg_right ho r3
    linarith
  have hr : ((jsRound ((jsMax (t + i - c) 0 * CostUtils.INPUT_COST_PER_TOKEN +
      c * CostUtils.CACHED_INPUT_COST_PER_TOKEN +
      o * CostUtils.IMAGE_OUTPUT_COST_PER_TOKEN) * 10000) : ℤ) : ℚ) ≤
      ((jsRound ((jsMax (t' + i' - c) 0 * CostUtils.INPUT_COST_PER_TOKEN +
      c * CostUtils.CACHED_INPUT_COST_PER_TOKEN +
      o' * CostUtils.IMAGE_OUTPUT_COST_PER_TOKEN) * 10000) : ℤ) : ℚ) := by
    exact_mod_cast jsRound_mono hX
  rw [div_le_div_iff₀ (by norm_num) (by norm_num)]
  linarith

/-- Witness for C5 (amended) with text rising from 1000000 to 2000000. -/
theorem cost_monotone_noncached_witness :
    CostUtils.calculateApiCost (CostUtils.mkUsage 1000000 0 0 0) =
      some ⟨8, 1000000, 0, 0, 1000000, 0⟩ ∧
    CostUtils.calculateApiCost (CostUtils.mkUsage 2000000 0 0 0) =
      some ⟨16, 2000000, 0, 0, 2000000, 0⟩ ∧
    (8 : ℚ) ≤ 16 := by
  have h1 : CostUtils.calculateApiCost (CostUtils.mkUsage 1000000 0 0 0) =
      some ⟨8, 1000000, 0, 0, 1000000, 0⟩ := by
    rw [CostUtils.calculateApiCost_mkUsage]
    norm_num [jsMax, jsRound, ratFloor_eq, CostUtils.INPUT_COST_PER_TOKEN,
      CostUtils.CACHED_INPUT_COST_PER_TOKEN, CostUtils.IMAGE_OUTPUT_COST_PER_TOKEN,
      CostUtils.CostDetails.mk.injEq, div_eq_iff, Int.floor_eq_iff]
  have h2 : CostUtils.calculateApiCost (CostUtils.mkUsage 2000000 0 0 0) =
      some ⟨16, 2000000, 0, 0, 2000000, 0⟩ := by
    rw [CostUtils.calculateApiCost_mkUsage]
    norm_num [jsMax, jsRound, ratFloor_eq, CostUtils.INPUT_COST_PER_TOKEN,
      CostUtils.CACHED_INPUT_COST_PER_TOKEN, CostUtils.IMAGE_OUTPUT_COST_PER_TOKEN,
      CostUtils.CostDetails.mk.injEq, div_eq_iff, Int.floor_eq_iff]
  exact ⟨h1, h2, cost_monotone_noncached 1000000 2000000 0 0 0 0 0
    (by norm_num) le_rfl le_rfl _ _ h1 h2⟩

/-- Claim C6: the two revisions of the cost calculator disagree on the
record with 1000000 text tokens and no other tokens: under model
gpt-image-1.5 the per-model revision returns 5 USD while the blended
combined-pool revision returns 8 USD. -/
theorem revisions_disagree_on_text_only_usage :
    (LegacyCost.calculateApiCost (LegacyCost.mkUsage 1000000 0 0) "gpt-image-1.5").map
      LegacyCost.CostDetails.estimated_cost_usd = some 5 ∧
    (CostUtils.calculateApiCost (CostUtils.mkUsage 1000000 0 0 0)).map
      CostUtils.CostDetails.estimated_cost_usd = some 8 ∧
    (5 : ℚ) ≠ 8 := by
  refine ⟨?_, ?_, by norm_num⟩
  · rw [LegacyCost.legacy_calculateApiCost_mkUsage]
    have et : LegacyCost.textInputCost "gpt-image-1.5" = 0.000005 := by
      simp [LegacyCost.textInputCost, LegacyCost.GPT_IMAGE_1_5_TEXT_INPUT_COST_PER_TOKEN]
    have ei : LegacyCost.imageInputCost "gpt-image-1.5" = 0.000008 := by
      simp [LegacyCost.imageInputCost, LegacyCost.GPT_IMAGE_1_5_IMAGE_INPUT_COST_PER_TOKEN]
    have eo : LegacyCost.imageOutputCost "gpt-image-1.5" = 0.000032 := by
      simp [LegacyCost.imageOutputCost, LegacyCost.GPT_IMAGE_1_5_IMAGE_OUTPUT_COST_PER_TOKEN]
    rw [et, ei, eo]
    norm_num [jsRound, ratFloor_eq, div_eq_iff, Int.floor_eq_iff]
  · rw [CostUtils.calculateApiCost_mkUsage]
    norm_num [jsMax, jsRound, ratFloor_eq, CostUtils.INPUT_COST_PER_TOKEN,
      CostUtils.CACHED_INPUT_COST_PER_TOKEN, CostUtils.IMAGE_OUTPUT_COST_PER_TOKEN,
      div_eq_iff, Int.floor_eq_iff]

/-- Claim C7: for text=100, image=0, cached=0, output=10 the estimator
returns billable_input_tokens = 100 and estimated_cost_usd equal to
100 × inputRate + 10 × outputRate rounded to 4 decimal places. -/
theorem scenario_a_concrete :
    CostUtils.calculateApiCost (CostUtils.mkUsage 100 0 0 10) =
      some ⟨0.0011, 100, 0, 0, 100, 10⟩ ∧
    (0.0011 : ℚ) =
      (roundHalfAwayFromZero ((100 * CostUtils.INPUT_COST_PER_TOKEN +
        10 * CostUtils.IMAGE_OUTPUT_COST_PER_TOKEN) * 10000) : ℚ) / 10000 := by
  constructor
  · rw [CostUtils.calculateApiCost_mkUsage]
    norm_num [jsMax, jsRound, ratFloor_eq, CostUtils.INPUT_COST_PER_TOKEN,
      CostUtils.CACHED_INPUT_COST_PER_TOKEN, CostUtils.IMAGE_OUTPUT_COST_PER_TOKEN,
      CostUtils.CostDetails.mk.injEq, div_eq_iff, Int.floor_eq_iff]
  · norm_num [roundHalfAwayFromZero, ratFloor_eq, CostUtils.INPUT_COST_PER_TOKEN,
      CostUtils.IMAGE_OUTPUT_COST_PER_TOKEN, div_eq_iff, Int.floor_eq_iff]

/-- Claim C8: for every valid usage record (all token counts
non-negative) the estimator accepts, estimated_cost_usd is at least 0. -/
theorem cost_nonneg (u : Option CostUtils.ApiUsage) (cd : CostUtils.CostDetails)
    (h : CostUtils.calculateApiCost u = some cd)
    (_h1 : 0 ≤ cd.text_input_tokens) (_h2 : 0 ≤ cd.image_input_tokens)
    (h3 : 0 ≤ cd.cached_input_tokens) (h4 : 0 ≤ cd.image_output_tokens) :
    0 ≤ cd.estimated_cost_usd := by
  obtain ⟨hb, he⟩ := CostUtils.calculateApiCost_some_spec u cd h
  have hbn : 0 ≤ cd.billable_input_tokens := hb ▸ jsMax_zero_nonneg _
  have hX : (0 : ℚ) ≤ (cd.billable_input_tokens * CostUtils.INPUT_COST_PER_TOKEN +
      cd.cached_input_tokens * CostUtils.CACHED_INPUT_COST_PER_TOKEN +
      cd.image_output_tokens * CostUtils.IMAGE_OUTPUT_COST_PER_TOKEN) * 10000 := by
    have r1 : (0 : ℚ) ≤ CostUtils.INPUT_COST_PER_TOKEN := by
      norm_num [CostUtils.INPUT_COST_PER_TOKEN]
    have r2 : (0 : ℚ) ≤ CostUtils.CACHED_INPUT_COST_PER_TOKEN := by
      norm_num [CostUtils.CACHED_INPUT_COST_PER_TOKEN]
    have r3 : (0 : ℚ) ≤ CostUtils.IMAGE_OUTPUT_COST_PER_TOKEN := by
      norm_num [CostUtils.IMAGE_OUTPUT_COST_PER_TOKEN]
    have := mul_nonneg hbn r1
    have := mul_nonneg h3 r2
    have := mul_nonneg h4 r3
    nlinarith
  rw [he]
  exact div_nonneg (by exact_mod_cast jsRound_nonneg hX) (by norm_num)

/-- Witness for C8 at the accepted record text=1, image=2, cached=3,
output=4. -/
theorem cost_nonneg_witness :
    CostUtils.calculateApiCost (CostUtils.mkUsage 1 2 3 4) =
      some ⟨0.0001, 1, 2, 3, 0, 4⟩ ∧
    (0 : ℚ) ≤ 0.0001 := by
  have hEval : CostUtils.calculateApiCost (CostUtils.mkUsage 1 2 3 4) =
      some ⟨0.0001, 1, 2, 3, 0, 4⟩ := by
    rw [CostUtils.calculateApiCost_mkUsage]
    norm_num [jsMax, jsRound, ratFloor_eq, CostUtils.INPUT_COST_PER_TOKEN,
      CostUtils.CACHED_INPUT_COST_PER_TOKEN, CostUtils.IMAGE_OUTPUT_COST_PER_TOKEN,
      CostUtils.CostDetails.mk.injEq, div_eq_iff, Int.floor_eq_iff]
  exact ⟨hEval, cost_nonneg _ _ hEval (show (0 : ℚ) ≤ 1 by norm_num)
    (show (0 : ℚ) ≤ 2 by norm_num) (show (0 : ℚ) ≤ 3 by norm_num)
    (show (0 : ℚ) ≤ 4 by norm_num)⟩

/-- Claim C9: a null output_tokens is rejected with the Invalid
sentinel, while a null text, image, or cached field inside
input_tokens_details is treated as absent: it is defaulted to 0 and the
record is accepted. -/
theorem null_handling_asymmetry :
    (∀ i c o : ℚ, (CostUtils.calculateApiCost
        (some ⟨some ⟨JsVal.null, JsVal.num i, JsVal.num c⟩, JsVal.num o⟩)).map
        CostUtils.CostDetails.text_input_tokens = some 0) ∧
    (∀ t c o : ℚ, (CostUtils.calculateApiCost
        (some ⟨some ⟨JsVal.num t, JsVal.null, JsVal.num c⟩, JsVal.num o⟩)).map
        CostUtils.CostDetails.image_input_tokens = some 0) ∧
    (∀ t i o : ℚ, (CostUtils.calculateApiCost
        (some ⟨some ⟨JsVal.num t, JsVal.num i, JsVal.null⟩, JsVal.num o⟩)).map
        CostUtils.CostDetails.cached_input_tokens = some 0) ∧
    (∀ d : CostUtils.InputTokensDetails,
      CostUtils.calculateApiCost (some ⟨some d, JsVal.null⟩) = none) :=
  ⟨fun _ _ _ => rfl, fun _ _ _ => rfl, fun _ _ _ => rfl, fun _ => rfl⟩

/-- Claim C10: the clip duration the POST handler of the video route
forwards is always one of 4, 8, or 12 seconds: a submitted value in
that set passes through unchanged, any other parsed numeric value is
replaced by an allowed value at minimal distance, and a missing or
non-numeric submission resolves to 8. -/
theorem seconds_always_allowed (field : Option String) :
    VideoRoute.resolveSeconds field ∈ VideoRoute.allowedSeconds ∧
    (∀ n : ℤ, VideoRoute.jsParseInt10 (VideoRoute.rawSeconds field) = some n →
      (n ∈ VideoRoute.allowedSeconds → VideoRoute.resolveSeconds field = n) ∧
      ∀ a ∈ VideoRoute.allowedSeconds,
        (VideoRoute.resolveSeconds field - n).natAbs ≤ (a - n).natAbs) ∧
    (VideoRoute.jsParseInt10 (VideoRoute.rawSeconds field) = none →
      VideoRoute.resolveSeconds field = 8) ∧
    VideoRoute.resolveSeconds none = 8 := by
  refine ⟨?_, ?_, ?_, rfl⟩
  · unfold VideoRoute.resolveSeconds
    cases h : VideoRoute.jsParseInt10 (VideoRoute.rawSeconds field) with
    | none =>
        rw [VideoRoute.nearestAllowed_none]
        decide
    | some n =>
        dsimp only
        split_ifs with hc
        · simpa using hc
        · exact VideoRoute.nearestAllowed_some_mem n
  · intro n hn
    constructor
    · intro hmem
      unfold VideoRoute.resolveSeconds
      rw [hn]
      dsimp only
      rw [if_pos (by simpa using hmem)]
    · intro a ha
      unfold VideoRoute.resolveSeconds
      rw [hn]
      dsimp only
      split_ifs with hc
      · simp
      · exact VideoRoute.nearestAllowed_some_nearest n a ha
  · intro hn
    unfold VideoRoute.resolveSeconds
    rw [hn]
    rfl

/-- Witness for C10 at the submitted value "5", which parses to the
disallowed 5 and resolves to an allowed duration at minimal distance. -/
theorem seconds_always_allowed_witness :
    VideoRoute.resolveSeconds (some "5") ∈ VideoRoute.allowedSeconds ∧
    (VideoRoute.resolveSeconds (some "5") - 5).natAbs ≤ ((12 : ℤ) - 5).natAbs := by
  have h5 : VideoRoute.jsParseInt10 (VideoRoute.rawSeconds (some "5")) = some 5 := rfl
  exact ⟨(seconds_always_allowed (some "5")).1,
    ((seconds_always_allowed (some "5")).2.1 5 h5).2 12 (by decide)⟩
